import Mathlib

set_option autoImplicit false

/-!
Shallow embedding of the Browser-Use-MCP repository (src/browser.py,
src/server.py, src/utils.py).

Engine calls (Playwright) and the blob store are external collaborators;
their behaviour during a run is supplied through explicit oracle
parameters.  Python exceptions are modelled by `PyErr`; a Python value
that is either `None` or a string is modelled by `PyVal`.  Mutable
browser state (`self.page.url`, `self.page_history`) is threaded
explicitly as `BrowserState`.
-/

/-- A Python exception: its type name and its message. -/
structure PyErr where
  typeName : String
  msg : String
deriving DecidableEq

/-- A Python value that is either `None` or a string (the only values the
actions of browser.py return). -/
inductive PyVal where
  | pyNone
  | pyStr (s : String)
deriving DecidableEq

deriving instance DecidableEq for Except

/-- The state of one `Browser` instance that the embedded actions read and
write: the current page URL and the `page_history` list. -/
structure BrowserState where
  pageUrl : String
  pageHistory : List String
deriving DecidableEq

/-- One attempt of a wrapped action: given the attempt index and the current
state, it returns either a value or a raised exception, together with the
state it leaves behind (Python state mutations survive an exception). -/
def PyAction (σ : Type) : Type := Nat → σ → (Except PyErr PyVal) × σ

/-- The message built by `async_exception_handler_with_retry` on the last
attempt: `f"Failed after {retries} attempts in {func.__name__}: {type(e).__name__} - {str(e)}"`. -/
def retryFailMsg (retries : Nat) (funcName : String) (e : PyErr) : String :=
  "Failed after " ++ toString retries ++ " attempts in " ++ funcName ++ ": "
    ++ e.typeName ++ " - " ++ e.msg

/-- The `for attempt in range(retries)` loop of
`async_exception_handler_with_retry` (browser.py lines 30-37): run the
function; on success return its value; on an exception return the failure
message if this was the last attempt, otherwise sleep and retry.  `fuel`
counts the loop iterations still available (`retries` at entry); the
trailing `return None` of the Python function corresponds to `fuel = 0`. -/
def retryLoop {σ : Type} (funcName : String) (retries : Nat) (func : PyAction σ) :
    Nat → Nat → σ → PyVal × σ
  | 0, _, s => (PyVal.pyNone, s)
  | fuel + 1, attempt, s =>
    match func attempt s with
    | (Except.ok v, s1) => (v, s1)
    | (Except.error e, s1) =>
      if attempt = retries - 1 then
        (PyVal.pyStr (retryFailMsg retries funcName e), s1)
      else
        retryLoop funcName retries func fuel (attempt + 1) s1

/-- `async_exception_handler_with_retry(exceptions=(TimeoutError, Exception),
retries=3, delay=1.0)` applied to `func`: every exception raised by an
attempt is caught (everything raised in this code base derives from
`Exception`), and up to `retries` attempts are made. -/
def asyncExceptionHandlerWithRetry {σ : Type} (funcName : String) (retries : Nat)
    (func : PyAction σ) (s : σ) : PyVal × σ :=
  retryLoop funcName retries func retries 0 s

/-- `Browser.visit_page` URL normalization (browser.py lines 117-118):
prefix `http://` when the URL has no scheme. -/
def normalizeUrl (url : String) : String :=
  if url.startsWith "http://" || url.startsWith "https://" then url
  else "http://" ++ url

/-- Engine behaviour of one `visit_page` attempt: whether `page.goto`
raises, and whether the subsequent `wait_for_load_state` raises. -/
structure VisitEngine where
  gotoErr : Option PyErr
  loadErr : Option PyErr

/-- The body of `Browser.visit_page` (browser.py lines 108-121), one
attempt: normalize the URL, navigate (setting the page URL), wait for
load, and return the success message.  `page_history` is never touched. -/
def visitPageBody (url : String) (o : VisitEngine) (s : BrowserState) :
    (Except PyErr PyVal) × BrowserState :=
  let u := normalizeUrl url
  match o.gotoErr with
  | some e => (Except.error e, s)
  | none =>
    let s1 : BrowserState := { s with pageUrl := u }
    match o.loadErr with
    | some e => (Except.error e, s1)
    | none => (Except.ok (PyVal.pyStr ("Successfully visited page: " ++ u)), s1)

/-- `Browser.visit_page`, retry-wrapped (decorator at browser.py line 107);
the oracle gives the engine behaviour of each attempt. -/
def visitPage (url : String) (o : Nat → VisitEngine) (s : BrowserState) :
    PyVal × BrowserState :=
  asyncExceptionHandlerWithRetry "visit_page" 3 (fun i => visitPageBody url (o i)) s

/-- `Browser.scroll_up` (browser.py lines 169-171): a bare
`page.keyboard.press("PageUp")` with no retry decorator; on success the
function returns `None`; an engine exception propagates. -/
def scrollUp (keyPressErr : Option PyErr) (s : BrowserState) :
    (Except PyErr PyVal) × BrowserState :=
  match keyPressErr with
  | some e => (Except.error e, s)
  | none => (Except.ok PyVal.pyNone, s)

/-- `Browser.scroll_down` (browser.py lines 173-175): identical to
`scroll_up` with the `PageDown` key. -/
def scrollDown (keyPressErr : Option PyErr) (s : BrowserState) :
    (Except PyErr PyVal) × BrowserState :=
  match keyPressErr with
  | some e => (Except.error e, s)
  | none => (Except.ok PyVal.pyNone, s)

/-- The body of `Browser.fill_form` (browser.py lines 178-189), one
attempt: fill the located element (the engine may raise), return the
success message.  Neither the URL nor `page_history` changes. -/
def fillFormBody (formName value : String) (fillErr : Option PyErr) (s : BrowserState) :
    (Except PyErr PyVal) × BrowserState :=
  match fillErr with
  | some e => (Except.error e, s)
  | none =>
    (Except.ok (PyVal.pyStr
      ("Filled form element '" ++ formName ++ "' with value '" ++ value ++ "'")), s)

/-- `Browser.fill_form`, retry-wrapped (decorator at browser.py line 177). -/
def fillForm (formName value : String) (o : Nat → Option PyErr) (s : BrowserState) :
    PyVal × BrowserState :=
  asyncExceptionHandlerWithRetry "fill_form" 3 (fun i => fillFormBody formName value (o i)) s

/-- Engine behaviour of the raw `click_text` body in one attempt: whether
`locator(f"text={text}").all()` finds any element, whether
`elements[0].click()` raises, and the value of `self.page.url` re-read
after the click. -/
structure ClickEngine where
  hasElements : Bool
  clickErr : Option PyErr
  urlAfterClick : String

/-- Engine behaviour of one wrapped click attempt: the `ClickEngine` data
for the raw body, and the outcome of the pending
`context.wait_for_event("page", timeout=3000)` future — `some u` when a
new page opened within the window and finished loading with URL `u`,
`none` when no page event fired (awaiting the future then raises a
timeout error). -/
structure ClickAttemptOracle where
  engine : ClickEngine
  popup : Option String

/-- The timeout exception raised by awaiting the expired
`wait_for_event("page", timeout=3000)` future. -/
def popupTimeoutErr : PyErr :=
  { typeName := "TimeoutError", msg := "Timeout 3000ms exceeded while waiting for event \"page\"" }

/-- The undecorated body of `Browser.click_text` (browser.py lines
192-211): read the current URL, locate elements containing the text
(raising `ValueError` when none exists), click the first one, and append
the pre-click URL to `page_history` when the page URL changed. -/
def clickTextRaw (text : String) (o : ClickEngine) (s : BrowserState) :
    (Except PyErr PyVal) × BrowserState :=
  let currentUrl := s.pageUrl
  if o.hasElements = false then
    (Except.error { typeName := "ValueError", msg := "No element found with text '" ++ text ++ "'" }, s)
  else
    match o.clickErr with
    | some e => (Except.error e, s)
    | none =>
      let s1 : BrowserState := { s with pageUrl := o.urlAfterClick }
      let s2 : BrowserState :=
        if currentUrl ≠ s1.pageUrl then { s1 with pageHistory := s1.pageHistory ++ [currentUrl] }
        else s1
      (Except.ok (PyVal.pyStr ("Clicked element with text '" ++ text ++ "'")), s2)

/-- The inner `wrapper` of `update_page_after_click` (browser.py lines
48-60), one attempt: start the popup-wait future, run the click body
(cancelling the future and re-raising on its exception), then await the
future — which raises a timeout error when no new page opened — and on a
new page adopt it as `self.page` after it loads. -/
def updatePageAfterClickBody (text : String) (o : ClickAttemptOracle) (s : BrowserState) :
    (Except PyErr PyVal) × BrowserState :=
  match clickTextRaw text o.engine s with
  | (Except.error e, s1) => (Except.error e, s1)
  | (Except.ok v, s1) =>
    match o.popup with
    | none => (Except.error popupTimeoutErr, s1)
    | some newUrl => (Except.ok v, { s1 with pageUrl := newUrl })

/-- `Browser.click_text` as dispatched: the `update_page_after_click`
wrapper around the raw body, itself wrapped by
`async_exception_handler_with_retry()` (browser.py line 47).  The inner
function is named `wrapper` and `update_page_after_click` does not
preserve `click_text`'s name, so the retry failure message names
`wrapper`. -/
def clickText (text : String) (o : Nat → ClickAttemptOracle) (s : BrowserState) :
    PyVal × BrowserState :=
  asyncExceptionHandlerWithRetry "wrapper" 3 (fun i => updatePageAfterClickBody text (o i)) s

/-- Engine behaviour of one `back` attempt: whether `page.go_back` raises,
the value of `self.page.url` after the engine-level back, whether the
load wait raises, and the engine behaviour of the nested `visit_page`
call used by the fallback. -/
structure BackEngine where
  goBackErr : Option PyErr
  urlAfterGoBack : String
  loadErr : Option PyErr
  visitEngine : Nat → VisitEngine

/-- The body of `Browser.back` (browser.py lines 214-224), one attempt:
record the URL, perform the engine-level back and the load wait, and when
the resulting URL is `about:blank` or unchanged and `page_history` is
non-empty, pop the most recent URL and call the (retry-wrapped)
`visit_page` on it, discarding its result.  `back` returns `None` on
every non-raising path. -/
def backBody (o : BackEngine) (s : BrowserState) : (Except PyErr PyVal) × BrowserState :=
  let pageUrlBefore := s.pageUrl
  match o.goBackErr with
  | some e => (Except.error e, s)
  | none =>
    let s1 : BrowserState := { s with pageUrl := o.urlAfterGoBack }
    match o.loadErr with
    | some e => (Except.error e, s1)
    | none =>
      if s1.pageUrl = "about:blank" ∨ s1.pageUrl = pageUrlBefore then
        match s1.pageHistory.getLast? with
        | none => (Except.ok PyVal.pyNone, s1)
        | some u =>
          let s2 : BrowserState := { s1 with pageHistory := s1.pageHistory.dropLast }
          (Except.ok PyVal.pyNone, (visitPage u o.visitEngine s2).2)
      else
        (Except.ok PyVal.pyNone, s1)

/-- `Browser.back`, retry-wrapped (decorator at browser.py line 213). -/
def back (o : Nat → BackEngine) (s : BrowserState) : PyVal × BrowserState :=
  asyncExceptionHandlerWithRetry "back" 3 (fun i => backBody (o i)) s

/-- The state of the server's session registry (server.py lines 19-20, 32):
the `browser_map` dict (id to `Browser` instance, instances numbered by
construction order), the supply of fresh instances, and the log of ids
for which `browser.init()` completed (one engine launch each). -/
structure RegistryState where
  browserMap : List (String × Nat)
  nextBrowser : Nat
  launchLog : List String
deriving DecidableEq

/-- Dict lookup by key (first binding wins; `get_or_create_browser` never
stores a key twice). -/
def regLookup (m : List (String × Nat)) (k : String) : Option Nat :=
  match m with
  | [] => none
  | (k1, b) :: rest => if k1 = k then some b else regLookup rest k

/-- The empty registry at server start. -/
def regInit : RegistryState :=
  { browserMap := [], nextBrowser := 0, launchLog := [] }

/-- `get_or_create_browser` (server.py lines 35-45), one call while
holding `browser_map_lock`: look the id up; when absent construct a
`Browser`, run `browser.init()` — on success store the instance and
return it, on an exception raise
`RuntimeError(f"Failed to initialize browser: {str(e)}")` leaving the map
unchanged.  `initErr` is the oracle for the engine launch: `none` when
`init()` succeeds, `some msg` when it raises with message `msg`. -/
def getOrCreateBrowser (initErr : Option String) (id : String) (st : RegistryState) :
    Except String Nat × RegistryState :=
  match regLookup st.browserMap id with
  | some b => (Except.ok b, st)
  | none =>
    let b := st.nextBrowser
    match initErr with
    | none =>
      (Except.ok b,
       { browserMap := st.browserMap ++ [(id, b)],
         nextBrowser := st.nextBrowser + 1,
         launchLog := st.launchLog ++ [id] })
    | some msg =>
      (Except.error ("Failed to initialize browser: " ++ msg),
       { st with nextBrowser := st.nextBrowser + 1 })

/-- A sequence of `get_or_create_browser` calls, serialized by
`browser_map_lock`; each element of the trace is the init oracle and the
session id of one call, and each result is tagged with its id. -/
def runGetOrCreate : List (Option String × String) → RegistryState →
    List (String × Except String Nat) × RegistryState
  | [], st => ([], st)
  | (e, id) :: rest, st =>
    let c := getOrCreateBrowser e id st
    let r := runGetOrCreate rest c.2
    ((id, c.1) :: r.1, r.2)

/-- The results that the calls for session `id` in a trace (run from the
empty registry) returned. -/
def resultsFor (trace : List (Option String × String)) (id : String) :
    List (Except String Nat) :=
  (runGetOrCreate trace regInit).1.filterMap
    (fun p => if p.1 = id then some p.2 else none)

/-- The `LAST_SCREEN_SHOT` dict of server.py (line 32): session id to the
stored value, which is a URL or Python `None`. -/
abbrev ScreenshotMap : Type := List (String × Option String)

/-- Python dict lookup: `none` when the key is absent (indexing then
raises `KeyError`). -/
def dictFind? (m : ScreenshotMap) (key : String) : Option (Option String) :=
  match m with
  | [] => none
  | (k, v) :: rest => if k = key then some v else dictFind? rest key

/-- Python dict assignment `m[key] = v`: overwrite the binding in place or
append a new one. -/
def dictSet (m : ScreenshotMap) (key : String) (v : Option String) : ScreenshotMap :=
  match m with
  | [] => [(key, v)]
  | (k, w) :: rest =>
    if k = key then (k, v) :: rest else (k, w) :: dictSet rest key v

/-- What `upload_files` (utils.py lines 6-46) returns, as far as server.py
reads it: the `status` string and the `"url"` entry of the `data` dict
when it has one. -/
structure UploadResult where
  status : String
  dataUrl : Option String
deriving DecidableEq

/-- The environment of one `upload_files` call: the `UPLOAD_FILE_URL`
variable may be unset, the POST may raise a `requests` exception, or the
store answers with a status code and a JSON body whose `"url"` field is
`jsonUrl`. -/
inductive UploadEnv where
  | noEnvVar
  | requestException (msg : String)
  | response (statusCode : Nat) (jsonUrl : Option String)
deriving DecidableEq

/-- `upload_files` (utils.py lines 6-46): with no `UPLOAD_FILE_URL` or on
a request exception it returns an error dict whose `data` has no `"url"`
key; otherwise it wraps the response JSON as `data` with status `"error"`
for a non-200 code and `"success"` for 200.  It never raises past its own
boundary. -/
def uploadFiles : UploadEnv → UploadResult
  | UploadEnv.noEnvVar => { status := "error", dataUrl := none }
  | UploadEnv.requestException _ => { status := "error", dataUrl := none }
  | UploadEnv.response code jsonUrl =>
    if code ≠ 200 then { status := "error", dataUrl := jsonUrl }
    else { status := "success", dataUrl := jsonUrl }

/-- The `KeyError` raised by `upload_result["data"]["url"]` when the
`data` dict has no `"url"` key. -/
def keyErrorUrl : PyErr := { typeName := "KeyError", msg := "'url'" }

/-- The server's `get_screenshot` (server.py lines 48-55): the browser
screenshot is captured and saved to `file_path` first (the list of saved
local files is the first component), then `upload_files` runs, then
`upload_result["data"]["url"]` is read — raising `KeyError` when absent —
and the URL is stored in `LAST_SCREEN_SHOT[id]` and returned. -/
def serverGetScreenshot (id filePath : String) (env : UploadEnv) (m : ScreenshotMap) :
    List String × Except PyErr (String × ScreenshotMap) :=
  let saved : List String := [filePath]
  match (uploadFiles env).dataUrl with
  | none => (saved, Except.error keyErrorUrl)
  | some url => (saved, Except.ok (url, dictSet m id (some url)))

/-- The `KeyError` raised by `LAST_SCREEN_SHOT[id]` for an id that was
never assigned. -/
def keyErrorId (id : String) : PyErr :=
  { typeName := "KeyError", msg := "'" ++ id ++ "'" }

/-- The `get_last_screenshot` tool (server.py lines 85-90): read
`LAST_SCREEN_SHOT[id]` — raising `KeyError` when the id has no entry —
then overwrite the slot with `None` and return the read value. -/
def getLastScreenshot (id : String) (m : ScreenshotMap) :
    Except PyErr (Option String × ScreenshotMap) :=
  match dictFind? m id with
  | none => Except.error (keyErrorId id)
  | some v => Except.ok (v, dictSet m id none)

/-- The observation template `TOOL_OBSERVATION_TEMPLATE` of server.py
(lines 22-31). -/
def TOOL_OBSERVATION_TEMPLATE : String :=
  "\n### 执行反馈\n<<FEEDBACK>>\n\n### 当前页面的按钮和表单\n<<INTERACTION>>\n\n### 当前页面的屏幕截图\n<<URL>>\n"

/-- The `TypeError` raised by `str.replace(old, new)` when `new` is
`None`. -/
def replaceTypeErr : PyErr :=
  { typeName := "TypeError", msg := "replace() argument 2 must be str, not None" }

/-- Python `s.replace(pat, v)` where `v` is the untyped action result:
raises `TypeError` when `v` is `None`. -/
def pyStrReplace (s pat : String) (v : PyVal) : Except PyErr String :=
  match v with
  | PyVal.pyNone => Except.error replaceTypeErr
  | PyVal.pyStr r => Except.ok (s.replace pat r)

/-- `call_browser_with_observation` (server.py lines 69-81): run the
action through `with_browser`, then `get_webpage_content`, then
`get_screenshot` — each of whose exceptions propagates — and finally
substitute the three template slots, where substituting a `None` feedback
raises `TypeError`. -/
def callBrowserWithObservation (result : Except PyErr PyVal)
    (content : Except PyErr String) (screenshot : Except PyErr String) :
    Except PyErr String :=
  match result with
  | Except.error e => Except.error e
  | Except.ok r =>
    match content with
    | Except.error e => Except.error e
    | Except.ok c =>
      match screenshot with
      | Except.error e => Except.error e
      | Except.ok u =>
        match pyStrReplace TOOL_OBSERVATION_TEMPLATE "<<FEEDBACK>>" r with
        | Except.error e => Except.error e
        | Except.ok s1 => Except.ok ((s1.replace "<<INTERACTION>>" c).replace "<<URL>>" u)

/-- The `visit_page` tool (server.py lines 94-98) with a given browser
state, engine oracle, and outcomes for the content and screenshot steps. -/
def toolVisitPage (url : String) (o : Nat → VisitEngine) (s : BrowserState)
    (content screenshot : Except PyErr String) : Except PyErr String :=
  callBrowserWithObservation (Except.ok (visitPage url o s).1) content screenshot

/-- The `scroll_down` tool (server.py lines 102-106). -/
def toolScrollDown (keyPressErr : Option PyErr) (s : BrowserState)
    (content screenshot : Except PyErr String) : Except PyErr String :=
  callBrowserWithObservation (scrollDown keyPressErr s).1 content screenshot

/-- The `scroll_up` tool (server.py lines 110-112). -/
def toolScrollUp (keyPressErr : Option PyErr) (s : BrowserState)
    (content screenshot : Except PyErr String) : Except PyErr String :=
  callBrowserWithObservation (scrollUp keyPressErr s).1 content screenshot

/-- The `fill_form` tool (server.py lines 116-120). -/
def toolFillForm (formName value : String) (o : Nat → Option PyErr) (s : BrowserState)
    (content screenshot : Except PyErr String) : Except PyErr String :=
  callBrowserWithObservation (Except.ok (fillForm formName value o s).1) content screenshot

/-- The `click_text` tool (server.py lines 124-128). -/
def toolClickText (text : String) (o : Nat → ClickAttemptOracle) (s : BrowserState)
    (content screenshot : Except PyErr String) : Except PyErr String :=
  callBrowserWithObservation (Except.ok (clickText text o s).1) content screenshot

/-- The `back` tool (server.py lines 132-134). -/
def toolBack (o : Nat → BackEngine) (s : BrowserState)
    (content screenshot : Except PyErr String) : Except PyErr String :=
  callBrowserWithObservation (Except.ok (back o s).1) content screenshot

/-! Helper lemmas about the retry wrapper. -/

/-- When the first attempt succeeds, the retry wrapper returns its value
and state. -/
theorem retry_first_ok {σ : Type} (fn : String) (func : PyAction σ) (s : σ)
    (v : PyVal) (s1 : σ) (h : func 0 s = (Except.ok v, s1)) :
    asyncExceptionHandlerWithRetry fn 3 func s = (v, s1) := by
  simp [asyncExceptionHandlerWithRetry, retryLoop, h]

/-- When every attempt raises `e` without touching the state, three
retries end in the exhaustion message. -/
theorem retry_all_fail {σ : Type} (fn : String) (func : PyAction σ) (e : PyErr)
    (h : ∀ i s, func i s = (Except.error e, s)) (s : σ) :
    asyncExceptionHandlerWithRetry fn 3 func s =
      (PyVal.pyStr (retryFailMsg 3 fn e), s) := by
  simp [asyncExceptionHandlerWithRetry, retryLoop, h]

/-- When every attempt raises the same error `e` (state changes allowed),
three retries end in the exhaustion message for `e`. -/
theorem retry_all_fail_fst {σ : Type} (fn : String) (func : PyAction σ)
    (e : PyErr) (h : ∀ i s, (func i s).1 = Except.error e) (s : σ) :
    (asyncExceptionHandlerWithRetry fn 3 func s).1 =
      PyVal.pyStr (retryFailMsg 3 fn e) := by
  rcases h0 : func 0 s with ⟨r0, s0⟩
  have e0 : r0 = Except.error e := by have := h 0 s; rw [h0] at this; exact this
  rcases h1 : func 1 s0 with ⟨r1, s1⟩
  have e1 : r1 = Except.error e := by have := h 1 s0; rw [h1] at this; exact this
  rcases h2 : func 2 s1 with ⟨r2, s2⟩
  have e2 : r2 = Except.error e := by have := h 2 s1; rw [h2] at this; exact this
  subst e0 e1 e2
  simp [asyncExceptionHandlerWithRetry, retryLoop, h0, h1, h2]

/-- A step property that holds on every attempt and is reflexive and
transitive relates the input state of the retry loop to its output
state. -/
theorem retryLoop_stateRel {σ : Type} (P : σ → σ → Prop)
    (hrefl : ∀ s, P s s) (htrans : ∀ a b c, P a b → P b c → P a c)
    (fn : String) (retries : Nat) (func : PyAction σ)
    (h : ∀ i s, P s (func i s).2) :
    ∀ fuel attempt s, P s (retryLoop fn retries func fuel attempt s).2 := by
  intro fuel
  induction fuel with
  | zero => intro attempt s; simpa [retryLoop] using hrefl s
  | succ f ih =>
    intro attempt s
    rcases hf : func attempt s with ⟨r, s1⟩
    have hs1 : P s s1 := by simpa [hf] using h attempt s
    cases r with
    | ok v => simpa [retryLoop, hf] using hs1
    | error e =>
      by_cases hlast : attempt = retries - 1
      · subst hlast
        simpa [retryLoop, hf] using hs1
      · have := ih (attempt + 1) s1
        simpa [retryLoop, hf, hlast] using htrans _ _ _ hs1 this

/-- The retry wrapper around a function whose successful values are all
strings produces a string (value or exhaustion message). -/
theorem retry_result_isStr {σ : Type} (fn : String) (retries : Nat) (func : PyAction σ)
    (h : ∀ i s v s1, func i s = (Except.ok v, s1) → ∃ m, v = PyVal.pyStr m) :
    ∀ fuel attempt s, attempt + fuel = retries → 0 < fuel →
      ∃ m, (retryLoop fn retries func fuel attempt s).1 = PyVal.pyStr m := by
  intro fuel
  induction fuel with
  | zero => intro attempt s _ hpos; exact absurd hpos (by simp)
  | succ f ih =>
    intro attempt s htot _
    rcases hf : func attempt s with ⟨r, s1⟩
    cases r with
    | ok v =>
      rcases h attempt s v s1 hf with ⟨m, rfl⟩
      exact ⟨m, by simp [retryLoop, hf]⟩
    | error e =>
      by_cases hlast : attempt = retries - 1
      · subst hlast
        exact ⟨retryFailMsg retries fn e, by simp [retryLoop, hf]⟩
      · have hfpos : 0 < f := by
          rcases Nat.eq_zero_or_pos f with hz | hp
          · subst hz
            exact absurd (by omega : attempt = retries - 1) hlast
          · exact hp
        have := ih (attempt + 1) s1 (by omega) hfpos
        simpa [retryLoop, hf, hlast] using this

/-! Helper lemmas about the individual actions. -/

/-- One `visit_page` attempt never touches `page_history`. -/
theorem visitPageBody_pageHistory (url : String) (o : VisitEngine) (s : BrowserState) :
    ((visitPageBody url o s).2).pageHistory = s.pageHistory := by
  rcases o with ⟨g, l⟩
  cases g <;> cases l <;> simp [visitPageBody]

/-- `visit_page` (with retries) never touches `page_history`. -/
theorem visitPage_pageHistory (url : String) (o : Nat → VisitEngine) (s : BrowserState) :
    ((visitPage url o s).2).pageHistory = s.pageHistory :=
  retryLoop_stateRel (fun (a b : BrowserState) => b.pageHistory = a.pageHistory) (fun _ => rfl)
    (fun _ _ _ hab hbc => hbc.trans hab) "visit_page" 3
    (fun i => visitPageBody url (o i))
    (fun i s1 => visitPageBody_pageHistory url (o i) s1) 3 0 s

/-- The raw click body appends exactly the pre-click URL, exactly when the
click went through and the page URL changed. -/
theorem clickTextRaw_pageHistory (text : String) (o : ClickEngine) (s : BrowserState) :
    ((clickTextRaw text o s).2).pageHistory =
      (if o.hasElements = true ∧ o.clickErr = none ∧ s.pageUrl ≠ o.urlAfterClick
       then s.pageHistory ++ [s.pageUrl] else s.pageHistory) := by
  rcases o with ⟨he, ce, ua⟩
  cases he <;> rcases ce with _ | e <;> by_cases hu : s.pageUrl = ua <;>
    simp [clickTextRaw, hu]

/-- One wrapped click attempt only ever extends `page_history`. -/
theorem updatePageAfterClickBody_extends (text : String) (o : ClickAttemptOracle)
    (s : BrowserState) :
    ∃ l, ((updatePageAfterClickBody text o s).2).pageHistory = s.pageHistory ++ l := by
  rcases o with ⟨⟨he, ce, ua⟩, pu⟩
  cases he
  · exact ⟨[], by simp [updatePageAfterClickBody, clickTextRaw]⟩
  · rcases ce with _ | e
    · by_cases hu : s.pageUrl = ua
      · refine ⟨[], ?_⟩
        cases pu <;> simp [updatePageAfterClickBody, clickTextRaw, hu]
      · refine ⟨[s.pageUrl], ?_⟩
        cases pu <;> simp [updatePageAfterClickBody, clickTextRaw, hu]
    · exact ⟨[], by cases pu <;> simp [updatePageAfterClickBody, clickTextRaw]⟩

/-- `click_text` (with retries) only ever extends `page_history`. -/
theorem clickText_extends (text : String) (o : Nat → ClickAttemptOracle) (s : BrowserState) :
    ∃ l, ((clickText text o s).2).pageHistory = s.pageHistory ++ l :=
  retryLoop_stateRel (fun (a b : BrowserState) => ∃ l, b.pageHistory = a.pageHistory ++ l)
    (fun _ => ⟨[], by simp⟩)
    (fun _ _ _ hab hbc => by
      rcases hab with ⟨l1, h1⟩; rcases hbc with ⟨l2, h2⟩
      exact ⟨l1 ++ l2, by rw [h2, h1, List.append_assoc]⟩)
    "wrapper" 3 (fun i => updatePageAfterClickBody text (o i))
    (fun i s1 => updatePageAfterClickBody_extends text (o i) s1) 3 0 s

/-- One `back` attempt only ever removes entries from the end of
`page_history`. -/
theorem backBody_pops (o : BackEngine) (s : BrowserState) :
    ∃ l, s.pageHistory = ((backBody o s).2).pageHistory ++ l := by
  rcases o with ⟨ge, ua, le, ve⟩
  rcases ge with _ | e
  · rcases le with _ | e
    · by_cases hb : ua = "about:blank" ∨ ua = s.pageUrl
      · rcases hl : s.pageHistory.getLast? with _ | u
        · exact ⟨[], by simp [backBody, hb, hl]⟩
        · refine ⟨[u], ?_⟩
          have hsplit : s.pageHistory.dropLast ++ [u] = s.pageHistory :=
            List.dropLast_append_getLast? u (by simp [hl])
          have hvis := visitPage_pageHistory u ve
            { pageUrl := ua, pageHistory := s.pageHistory.dropLast }
          simp [backBody, hb, hl, hvis, hsplit]
      · exact ⟨[], by simp [backBody, hb]⟩
    · exact ⟨[], by simp [backBody]⟩
  · exact ⟨[], by simp [backBody]⟩

/-- `back` (with retries) only ever removes entries from the end of
`page_history`. -/
theorem back_pops (o : Nat → BackEngine) (s : BrowserState) :
    ∃ l, s.pageHistory = ((back o s).2).pageHistory ++ l :=
  retryLoop_stateRel (fun (a b : BrowserState) => ∃ l, a.pageHistory = b.pageHistory ++ l)
    (fun _ => ⟨[], by simp⟩)
    (fun _ _ _ hab hbc => by
      rcases hab with ⟨l1, h1⟩; rcases hbc with ⟨l2, h2⟩
      exact ⟨l2 ++ l1, by rw [h1, h2, List.append_assoc]⟩)
    "back" 3 (fun i => backBody (o i))
    (fun i s1 => backBody_pops (o i) s1) 3 0 s

/-- `scroll_up` never touches the browser state at all. -/
theorem scrollUp_state (e : Option PyErr) (s : BrowserState) : (scrollUp e s).2 = s := by
  cases e <;> simp [scrollUp]

/-- `scroll_down` never touches the browser state at all. -/
theorem scrollDown_state (e : Option PyErr) (s : BrowserState) : (scrollDown e s).2 = s := by
  cases e <;> simp [scrollDown]

/-- One `fill_form` attempt never touches the browser state. -/
theorem fillFormBody_state (n v : String) (e : Option PyErr) (s : BrowserState) :
    (fillFormBody n v e s).2 = s := by
  cases e <;> simp [fillFormBody]

/-- `fill_form` (with retries) never touches the browser state. -/
theorem fillForm_state (n v : String) (o : Nat → Option PyErr) (s : BrowserState) :
    (fillForm n v o s).2 = s :=
  retryLoop_stateRel (fun (a b : BrowserState) => b = a) (fun _ => rfl)
    (fun _ _ _ hab hbc => hbc.trans hab) "fill_form" 3
    (fun i => fillFormBody n v (o i))
    (fun i s1 => fillFormBody_state n v (o i) s1) 3 0 s

/-! Claim theorems. -/

/-- C5: invoking `click_text` on a page containing no element whose text
matches yields, after the full retry budget of 3 attempts, the failure
result string naming the missing text (a returned value, not a raised
exception), leaving the browser state unchanged. -/
theorem click_missing_text_fails_after_three_attempts (text : String)
    (o : Nat → ClickAttemptOracle) (s : BrowserState)
    (h : ∀ i, (o i).engine.hasElements = false) :
    clickText text o s =
      (PyVal.pyStr (retryFailMsg 3 "wrapper"
        { typeName := "ValueError",
          msg := "No element found with text '" ++ text ++ "'" }), s) := by
  unfold clickText
  apply retry_all_fail
  intro i s1
  simp [updatePageAfterClickBody, clickTextRaw, h i]

/-- C5 witness: clicking `"Submit"` on a page with no matching element. -/
theorem click_missing_text_fails_after_three_attempts_witness :
    clickText "Submit"
      (fun _ => { engine := { hasElements := false, clickErr := none, urlAfterClick := "http://a/" },
                  popup := none })
      { pageUrl := "http://a/", pageHistory := [] } =
      (PyVal.pyStr (retryFailMsg 3 "wrapper"
        { typeName := "ValueError",
          msg := "No element found with text '" ++ "Submit" ++ "'" }),
       { pageUrl := "http://a/", pageHistory := [] }) :=
  click_missing_text_fails_after_three_attempts "Submit" _ _ (fun _ => rfl)

/-- C3 (code bug evaluation): when the underlying click succeeds on every
attempt and no new page opens within the 3-second popup window, the
absent popup makes `await new_page_future` raise, the retry wrapper
re-runs the whole click three times, and the call returns the retry
exhaustion failure string — it does not complete normally and the missing
popup is reported as a failure. -/
theorem popupless_click_reported_as_failure (text : String)
    (o : Nat → ClickAttemptOracle) (s : BrowserState)
    (h : ∀ i, (o i).engine.hasElements = true ∧ (o i).engine.clickErr = none ∧
      (o i).popup = none) :
    (clickText text o s).1 = PyVal.pyStr (retryFailMsg 3 "wrapper" popupTimeoutErr) := by
  unfold clickText
  apply retry_all_fail_fst
  intro i s1
  obtain ⟨h1, h2, h3⟩ := h i
  simp [updatePageAfterClickBody, clickTextRaw, h1, h2, h3]

/-- C3 witness: a click that succeeds without opening a popup, evaluated
concretely. -/
theorem popupless_click_reported_as_failure_witness :
    (clickText "OK"
      (fun _ => { engine := { hasElements := true, clickErr := none, urlAfterClick := "http://a/" },
                  popup := none })
      { pageUrl := "http://a/", pageHistory := [] }).1 =
      PyVal.pyStr (retryFailMsg 3 "wrapper" popupTimeoutErr) :=
  popupless_click_reported_as_failure "OK" _ _ (fun _ => ⟨rfl, rfl, rfl⟩)

/-- C10: `page_history` is appended to only by the raw click body, exactly
when the click goes through and leaves the page at a different URL, and
the appended entry is the pre-click URL; `visit_page`, the scrolls and
`fill_form` never touch it; the full `click_text` call only ever extends
it; and `back` only ever removes entries from its end — so the
back-navigation fallback can only recover URLs recorded by URL-changing
clicks. -/
theorem history_appends_only_from_url_changing_clicks :
    (∀ url o s, ((visitPage url o s).2).pageHistory = s.pageHistory) ∧
    (∀ e s, ((scrollUp e s).2).pageHistory = s.pageHistory) ∧
    (∀ e s, ((scrollDown e s).2).pageHistory = s.pageHistory) ∧
    (∀ n v o s, ((fillForm n v o s).2).pageHistory = s.pageHistory) ∧
    (∀ text o s, ((clickTextRaw text o s).2).pageHistory =
      (if o.hasElements = true ∧ o.clickErr = none ∧ s.pageUrl ≠ o.urlAfterClick
       then s.pageHistory ++ [s.pageUrl] else s.pageHistory)) ∧
    (∀ text o s, ∃ l, ((clickText text o s).2).pageHistory = s.pageHistory ++ l) ∧
    (∀ o s, ∃ l, s.pageHistory = ((back o s).2).pageHistory ++ l) := by
  refine ⟨visitPage_pageHistory, ?_, ?_, ?_, clickTextRaw_pageHistory,
    clickText_extends, back_pops⟩
  · intro e s; rw [scrollUp_state]
  · intro e s; rw [scrollDown_state]
  · intro n v o s; rw [fillForm_state]

/-- C6: for a `back` whose engine-level history-back and load wait
complete, (1) when the resulting URL is the blank placeholder or equals
the pre-back URL and the history stack is non-empty, the most recent
recorded URL is popped and visited directly (in particular, when that
visit succeeds the page ends on the popped URL with the stack shrunk by
one); (2) when the stack is empty the page is left as-is at the
engine-level result; (3) when the engine-level back moved to a different
non-blank URL, no fallback visit occurs. -/
theorem back_fallback_policy (o : Nat → BackEngine) (s : BrowserState)
    (hgb : (o 0).goBackErr = none) (hld : (o 0).loadErr = none) :
    (((o 0).urlAfterGoBack = "about:blank" ∨ (o 0).urlAfterGoBack = s.pageUrl) →
       ∀ hist u, s.pageHistory = hist ++ [u] →
         (back o s).2 =
           (visitPage u (o 0).visitEngine
             { pageUrl := (o 0).urlAfterGoBack, pageHistory := hist }).2 ∧
         ((o 0).visitEngine 0 = { gotoErr := none, loadErr := none } →
           (back o s).2 = { pageUrl := normalizeUrl u, pageHistory := hist })) ∧
    (((o 0).urlAfterGoBack = "about:blank" ∨ (o 0).urlAfterGoBack = s.pageUrl) →
       s.pageHistory = [] →
       (back o s).2 = { pageUrl := (o 0).urlAfterGoBack, pageHistory := [] }) ∧
    ((o 0).urlAfterGoBack ≠ "about:blank" → (o 0).urlAfterGoBack ≠ s.pageUrl →
       (back o s).2 = { pageUrl := (o 0).urlAfterGoBack, pageHistory := s.pageHistory }) := by
  refine ⟨?_, ?_, ?_⟩
  · intro hcond hist u hsplit
    have hbody : backBody (o 0) s =
        (Except.ok PyVal.pyNone,
         (visitPage u (o 0).visitEngine
           { pageUrl := (o 0).urlAfterGoBack, pageHistory := hist }).2) := by
      simp only [backBody, hgb, hld]
      rw [if_pos]
      · simp [hsplit, List.getLast?_concat, List.dropLast_concat]
      · simpa using hcond
    have hb := retry_first_ok "back" (fun i => backBody (o i)) s PyVal.pyNone _ hbody
    have hstate : (back o s).2 =
        (visitPage u (o 0).visitEngine
          { pageUrl := (o 0).urlAfterGoBack, pageHistory := hist }).2 := by
      unfold back
      rw [hb]
    refine ⟨hstate, ?_⟩
    intro hve
    have hvbody : visitPageBody u ((o 0).visitEngine 0)
        { pageUrl := (o 0).urlAfterGoBack, pageHistory := hist } =
        (Except.ok (PyVal.pyStr ("Successfully visited page: " ++ normalizeUrl u)),
         { pageUrl := normalizeUrl u, pageHistory := hist }) := by
      simp [visitPageBody, hve]
    have hv := retry_first_ok "visit_page"
      (fun i => visitPageBody u ((o 0).visitEngine i))
      { pageUrl := (o 0).urlAfterGoBack, pageHistory := hist } _ _ hvbody
    rw [hstate]
    unfold visitPage
    rw [hv]
  · intro hcond hempty
    have hbody : backBody (o 0) s =
        (Except.ok PyVal.pyNone,
         { pageUrl := (o 0).urlAfterGoBack, pageHistory := [] }) := by
      simp only [backBody, hgb, hld]
      rw [if_pos]
      · simp [hempty]
      · simpa using hcond
    have hb := retry_first_ok "back" (fun i => backBody (o i)) s PyVal.pyNone _ hbody
    unfold back
    rw [hb]
  · intro hne1 hne2
    have hbody : backBody (o 0) s =
        (Except.ok PyVal.pyNone,
         { pageUrl := (o 0).urlAfterGoBack, pageHistory := s.pageHistory }) := by
      simp only [backBody, hgb, hld]
      rw [if_neg]
      simp [hne1, hne2]
    have hb := retry_first_ok "back" (fun i => backBody (o i)) s PyVal.pyNone _ hbody
    unfold back
    rw [hb]

/-! Registry lemmas. -/

/-- Lookup over a map with a fresh binding appended. -/
theorem regLookup_append (m : List (String × Nat)) (k k1 : String) (b : Nat) :
    regLookup (m ++ [(k, b)]) k1 =
      (match regLookup m k1 with
       | some x => some x
       | none => if k = k1 then some b else none) := by
  induction m with
  | nil => simp [regLookup]
  | cons p rest ih =>
    rcases p with ⟨k2, b2⟩
    by_cases hk : k2 = k1 <;> simp [regLookup, hk, ih]

/-- An existing binding survives any later `get_or_create_browser` call. -/
theorem getOrCreate_preserves (e : Option String) (i id : String) (st : RegistryState)
    (b : Nat) (h : regLookup st.browserMap id = some b) :
    regLookup ((getOrCreateBrowser e i st).2).browserMap id = some b := by
  unfold getOrCreateBrowser
  rcases hli : regLookup st.browserMap i with _ | bi
  · rcases e with _ | msg
    · simp [hli, regLookup_append, h]
    · simp [hli, h]
  · simp [hli, h]

/-- An existing binding survives a whole run of calls. -/
theorem runGetOrCreate_preserves (t : List (Option String × String)) (st : RegistryState)
    (id : String) (b : Nat) (h : regLookup st.browserMap id = some b) :
    regLookup ((runGetOrCreate t st).2).browserMap id = some b := by
  induction t generalizing st with
  | nil => simpa [runGetOrCreate] using h
  | cons p rest ih =>
    rcases p with ⟨e, i⟩
    simp only [runGetOrCreate]
    exact ih _ (getOrCreate_preserves e i id st b h)

/-- A call that returns `ok b` for `id` leaves `id` bound to `b`. -/
theorem getOrCreate_result (e : Option String) (id : String) (st : RegistryState) (b : Nat)
    (h : (getOrCreateBrowser e id st).1 = Except.ok b) :
    regLookup ((getOrCreateBrowser e id st).2).browserMap id = some b := by
  unfold getOrCreateBrowser at h ⊢
  rcases hli : regLookup st.browserMap id with _ | b0
  · rcases e with _ | msg
    · rw [hli] at h
      simp at h
      simp [hli, regLookup_append, h]
    · rw [hli] at h
      simp at h
  · rw [hli] at h
    simp at h
    simp [hli, h]

/-- Every `ok` result a run produced for `id` equals the final binding of
`id`. -/
theorem runGetOrCreate_ok_mem (t : List (Option String × String)) (st : RegistryState)
    (id : String) (b : Nat) (h : (id, Except.ok b) ∈ (runGetOrCreate t st).1) :
    regLookup ((runGetOrCreate t st).2).browserMap id = some b := by
  induction t generalizing st with
  | nil => simp [runGetOrCreate] at h
  | cons p rest ih =>
    rcases p with ⟨e, i⟩
    simp only [runGetOrCreate, List.mem_cons, Prod.mk.injEq] at h ⊢
    rcases h with ⟨h1, h2⟩ | h
    · subst h1
      exact runGetOrCreate_preserves rest _ id b (getOrCreate_result e id st b h2.symm)
    · exact ih _ h

/-- One call preserves the launch-count invariant: each id has been
launched once when bound, zero times when absent. -/
theorem getOrCreate_count (e : Option String) (i : String) (st : RegistryState)
    (h : ∀ id, st.launchLog.count id =
      (if (regLookup st.browserMap id).isSome then 1 else 0)) :
    ∀ id, ((getOrCreateBrowser e i st).2).launchLog.count id =
      (if (regLookup ((getOrCreateBrowser e i st).2).browserMap id).isSome then 1 else 0) := by
  intro id
  unfold getOrCreateBrowser
  rcases hli : regLookup st.browserMap i with _ | bi
  · rcases e with _ | msg
    · by_cases hid : i = id
      · subst hid
        have h0 := h i
        rw [hli] at h0
        simp at h0
        simp [regLookup_append, hli, h0]
      · have h0 := h id
        rcases hlid : regLookup st.browserMap id with _ | b0 <;>
          rw [hlid] at h0 <;>
          simp [regLookup_append, hli, hid, hlid, h0, List.count_cons, List.count_nil,
            fun he : i = id => hid he]
    · simpa using h id
  · simpa using h id

/-- A run preserves the launch-count invariant. -/
theorem runGetOrCreate_count (t : List (Option String × String)) (st : RegistryState)
    (h : ∀ id, st.launchLog.count id =
      (if (regLookup st.browserMap id).isSome then 1 else 0)) :
    ∀ id, ((runGetOrCreate t st).2).launchLog.count id =
      (if (regLookup ((runGetOrCreate t st).2).browserMap id).isSome then 1 else 0) := by
  induction t generalizing st with
  | nil => simpa [runGetOrCreate] using h
  | cons p rest ih =>
    rcases p with ⟨e, i⟩
    simp only [runGetOrCreate]
    exact ih _ (getOrCreate_count e i st h)

/-- An `ok` result among the results for `id` came from a call for `id`. -/
theorem resultsFor_mem (trace : List (Option String × String)) (id : String)
    (r : Except String Nat) (h : r ∈ resultsFor trace id) :
    (id, r) ∈ (runGetOrCreate trace regInit).1 := by
  unfold resultsFor at h
  rcases List.mem_filterMap.mp h with ⟨p, hp, hf⟩
  rcases p with ⟨i, r1⟩
  by_cases hi : i = id
  · subst hi
    simp at hf
    subst hf
    exact hp
  · simp [hi] at hf

/-- C2: over any serialized sequence of `get_or_create_browser` calls
from server start (the lock serializes concurrent callers), all `ok`
results for one session id are the identical instance, the id was
launched exactly once whenever some call returned it, and no id is ever
launched more than once. -/
theorem registry_single_instance_per_id (trace : List (Option String × String))
    (id : String) (b b1 : Nat) (hb : Except.ok b ∈ resultsFor trace id)
    (hb1 : Except.ok b1 ∈ resultsFor trace id) :
    b = b1 ∧ ((runGetOrCreate trace regInit).2).launchLog.count id = 1 ∧
    ∀ i, ((runGetOrCreate trace regInit).2).launchLog.count i ≤ 1 := by
  have hfin := runGetOrCreate_ok_mem trace regInit id b (resultsFor_mem trace id _ hb)
  have hfin1 := runGetOrCreate_ok_mem trace regInit id b1 (resultsFor_mem trace id _ hb1)
  have hinv : ∀ i, ((runGetOrCreate trace regInit).2).launchLog.count i =
      (if (regLookup ((runGetOrCreate trace regInit).2).browserMap i).isSome then 1 else 0) :=
    runGetOrCreate_count trace regInit (fun i => by simp [regInit, regLookup])
  refine ⟨?_, ?_, ?_⟩
  · exact Option.some.inj (hfin.symm.trans hfin1)
  · rw [hinv id, hfin]
    rfl
  · intro i
    rw [hinv i]
    split <;> omega

/-- C2 witness: two calls for `"a"` and one for `"b"`, all inits
succeeding. -/
theorem registry_single_instance_per_id_witness :
    0 = 0 ∧
    ((runGetOrCreate [(none, "a"), (none, "a"), (none, "b")] regInit).2).launchLog.count "a" = 1 ∧
    ∀ i, ((runGetOrCreate [(none, "a"), (none, "a"), (none, "b")] regInit).2).launchLog.count i ≤ 1 :=
  registry_single_instance_per_id [(none, "a"), (none, "a"), (none, "b")] "a" 0 0
    (by decide) (by decide)

/-- C4: when engine launch fails during `get_or_create_browser` for an
unseen id, the call propagates the construction error, publishes no entry
for the id, records no launch, and the next call for the same id attempts
(and here completes) creation. -/
theorem init_failure_leaves_registry_absent (msg id : String) (st : RegistryState)
    (h : regLookup st.browserMap id = none) :
    (getOrCreateBrowser (some msg) id st).1 =
      Except.error ("Failed to initialize browser: " ++ msg) ∧
    regLookup ((getOrCreateBrowser (some msg) id st).2).browserMap id = none ∧
    ((getOrCreateBrowser (some msg) id st).2).launchLog = st.launchLog ∧
    (getOrCreateBrowser none id ((getOrCreateBrowser (some msg) id st).2)).1 =
      Except.ok ((getOrCreateBrowser (some msg) id st).2).nextBrowser ∧
    regLookup ((getOrCreateBrowser none id
        ((getOrCreateBrowser (some msg) id st).2)).2).browserMap id =
      some ((getOrCreateBrowser (some msg) id st).2).nextBrowser := by
  simp [getOrCreateBrowser, h, regLookup_append]

/-- C4 witness: a failing init for `"a"` on the empty registry, then a
succeeding retry. -/
theorem init_failure_leaves_registry_absent_witness :
    (getOrCreateBrowser (some "boom") "a" regInit).1 =
      Except.error ("Failed to initialize browser: " ++ "boom") ∧
    regLookup ((getOrCreateBrowser (some "boom") "a" regInit).2).browserMap "a" = none ∧
    ((getOrCreateBrowser (some "boom") "a" regInit).2).launchLog = regInit.launchLog ∧
    (getOrCreateBrowser none "a" ((getOrCreateBrowser (some "boom") "a" regInit).2)).1 =
      Except.ok ((getOrCreateBrowser (some "boom") "a" regInit).2).nextBrowser ∧
    regLookup ((getOrCreateBrowser none "a"
        ((getOrCreateBrowser (some "boom") "a" regInit).2)).2).browserMap "a" =
      some ((getOrCreateBrowser (some "boom") "a" regInit).2).nextBrowser :=
  init_failure_leaves_registry_absent "boom" "a" regInit rfl

/-! Screenshot-slot lemmas. -/

/-- Reading a key just assigned returns the assigned value. -/
theorem dictFind?_dictSet_self (m : ScreenshotMap) (k : String) (v : Option String) :
    dictFind? (dictSet m k v) k = some v := by
  induction m with
  | nil => simp [dictSet, dictFind?]
  | cons p rest ih =>
    rcases p with ⟨k1, w⟩
    by_cases hk : k1 = k <;> simp [dictSet, dictFind?, hk, ih]

/-- C7: after a successful capture stores a screenshot URL for a session,
the first `get_last_screenshot` call returns that URL and overwrites the
slot with `None`, and a second call with no intervening capture returns
`None`. -/
theorem last_screenshot_consumed_at_most_once (id filePath url : String)
    (env : UploadEnv) (m m1 : ScreenshotMap)
    (h : (serverGetScreenshot id filePath env m).2 = Except.ok (url, m1)) :
    getLastScreenshot id m1 = Except.ok (some url, dictSet m1 id none) ∧
    getLastScreenshot id (dictSet m1 id none) =
      Except.ok (none, dictSet (dictSet m1 id none) id none) := by
  unfold serverGetScreenshot at h
  rcases hu : (uploadFiles env).dataUrl with _ | u
  · rw [hu] at h
    simp at h
  · rw [hu] at h
    simp at h
    obtain ⟨rfl, rfl⟩ := h
    constructor
    · simp [getLastScreenshot, dictFind?_dictSet_self]
    · simp [getLastScreenshot, dictFind?_dictSet_self]

/-- C7 witness: a capture for session `"c"` with a 200 upload response. -/
theorem last_screenshot_consumed_at_most_once_witness :
    getLastScreenshot "c" (dictSet [] "c" (some "http://files/s.png")) =
      Except.ok (some "http://files/s.png",
        dictSet (dictSet [] "c" (some "http://files/s.png")) "c" none) ∧
    getLastScreenshot "c" (dictSet (dictSet [] "c" (some "http://files/s.png")) "c" none) =
      Except.ok (none,
        dictSet (dictSet (dictSet [] "c" (some "http://files/s.png")) "c" none) "c" none) :=
  last_screenshot_consumed_at_most_once "c" "tmp/s.png" "http://files/s.png"
    (UploadEnv.response 200 (some "http://files/s.png")) [] _ rfl

/-- C9 counterexample: `get_last_screenshot` for a session that never
captured a screenshot raises `KeyError` instead of returning empty. -/
theorem get_last_screenshot_unseen_raises :
    getLastScreenshot "client1" [] = Except.error (keyErrorId "client1") := rfl

/-- C9 amended: `get_last_screenshot` returns the stored URL-or-`None`
value and clears the slot for every session that has an entry in
`LAST_SCREEN_SHOT` (one capture, consumed or not); for a session with no
entry it raises `KeyError` rather than returning empty. -/
theorem get_last_screenshot_total_when_captured (id : String) (m : ScreenshotMap)
    (v : Option String) (h : dictFind? m id = some v) :
    getLastScreenshot id m = Except.ok (v, dictSet m id none) := by
  simp [getLastScreenshot, h]

/-- C9 amended witness: a session with a stored URL. -/
theorem get_last_screenshot_total_when_captured_witness :
    getLastScreenshot "a" [("a", some "http://files/s.png")] =
      Except.ok (some "http://files/s.png", dictSet [("a", some "http://files/s.png")] "a" none) :=
  get_last_screenshot_total_when_captured "a" [("a", some "http://files/s.png")]
    (some "http://files/s.png") rfl

/-- C8 counterexample: with the blob store answering 500 (its error JSON
has no `"url"` key), the screenshot call raises `KeyError` — the caller
gets a fault, not an observation whose screenshot slot is an error
indicator. -/
theorem upload_failure_faults_key_error :
    (serverGetScreenshot "s1" "tmp/screenshot_20250101_000000.png"
      (UploadEnv.response 500 none) []).2 = Except.error keyErrorUrl := rfl

/-- C8 amended: when the upload outcome carries no `"url"` (store
unreachable, upload endpoint unset, or an error response without a URL),
the screenshot file has still been saved locally, but the call raises
`KeyError` from `upload_result["data"]["url"]` instead of returning an
observation with an error indicator. -/
theorem upload_failure_local_file_and_fault (id filePath : String) (env : UploadEnv)
    (m : ScreenshotMap) (h : (uploadFiles env).dataUrl = none) :
    serverGetScreenshot id filePath env m = ([filePath], Except.error keyErrorUrl) := by
  simp [serverGetScreenshot, h]

/-- C8 amended witness: an unreachable store (request exception). -/
theorem upload_failure_local_file_and_fault_witness :
    serverGetScreenshot "s1" "tmp/screenshot_20250101_000000.png"
      (UploadEnv.requestException "connection refused") [] =
      (["tmp/screenshot_20250101_000000.png"], Except.error keyErrorUrl) :=
  upload_failure_local_file_and_fault "s1" "tmp/screenshot_20250101_000000.png"
    (UploadEnv.requestException "connection refused") [] rfl

/-! Observation-pipeline lemmas. -/

/-- The retry wrapper returns the first attempt's value when it
succeeds. -/
theorem retry_first_ok_fst {σ : Type} (fn : String) (func : PyAction σ) (s : σ)
    (v : PyVal) (h : (func 0 s).1 = Except.ok v) :
    (asyncExceptionHandlerWithRetry fn 3 func s).1 = v := by
  rcases h0 : func 0 s with ⟨r, s1⟩
  rw [h0] at h
  simp at h
  subst h
  simp [asyncExceptionHandlerWithRetry, retryLoop, h0]

/-- `visit_page` always returns a string (success message or retry
exhaustion message). -/
theorem visitPage_result_isStr (url : String) (o : Nat → VisitEngine) (s : BrowserState) :
    ∃ m, (visitPage url o s).1 = PyVal.pyStr m := by
  unfold visitPage asyncExceptionHandlerWithRetry
  refine retry_result_isStr "visit_page" 3 (fun i => visitPageBody url (o i)) ?_ 3 0 s rfl
    (by omega)
  intro i s1 v s2 hv
  rcases hg : (o i).gotoErr with _ | e1 <;> rcases hl : (o i).loadErr with _ | e2 <;>
    simp only [visitPageBody, hg, hl] at hv <;> simp at hv
  exact ⟨_, hv.1.symm⟩

/-- `fill_form` always returns a string. -/
theorem fillForm_result_isStr (n v : String) (o : Nat → Option PyErr) (s : BrowserState) :
    ∃ m, (fillForm n v o s).1 = PyVal.pyStr m := by
  unfold fillForm asyncExceptionHandlerWithRetry
  refine retry_result_isStr "fill_form" 3 (fun i => fillFormBody n v (o i)) ?_ 3 0 s rfl
    (by omega)
  intro i s1 w s2 hv
  rcases he : o i with _ | e <;> simp only [fillFormBody, he] at hv <;> simp at hv
  exact ⟨_, hv.1.symm⟩

/-- `click_text` always returns a string. -/
theorem clickText_result_isStr (text : String) (o : Nat → ClickAttemptOracle)
    (s : BrowserState) :
    ∃ m, (clickText text o s).1 = PyVal.pyStr m := by
  unfold clickText asyncExceptionHandlerWithRetry
  refine retry_result_isStr "wrapper" 3 (fun i => updatePageAfterClickBody text (o i)) ?_
    3 0 s rfl (by omega)
  intro i s1 v s2 hv
  rcases hhe : (o i).engine.hasElements with _ | _ <;>
    rcases hce : (o i).engine.clickErr with _ | e <;>
    rcases hpu : (o i).popup with _ | u <;>
    simp only [updatePageAfterClickBody, clickTextRaw, hhe, hce, hpu] at hv <;>
    simp at hv <;> exact ⟨_, hv.1.symm⟩

/-- A `back` whose first attempt's engine calls complete returns `None`. -/
theorem backBody_fst (o : BackEngine) (s : BrowserState)
    (hgb : o.goBackErr = none) (hld : o.loadErr = none) :
    (backBody o s).1 = Except.ok PyVal.pyNone := by
  simp only [backBody, hgb, hld]
  split
  · split <;> rfl
  · rfl

/-- Substituting a string feedback into the template succeeds. -/
theorem callBrowserWithObservation_ok (m c u : String) :
    callBrowserWithObservation (Except.ok (PyVal.pyStr m)) (Except.ok c) (Except.ok u) =
      Except.ok (((TOOL_OBSERVATION_TEMPLATE.replace "<<FEEDBACK>>" m).replace
        "<<INTERACTION>>" c).replace "<<URL>>" u) := rfl

/-- C1 counterexample: a `scroll_up` tool call in which the key press,
the content extraction and the screenshot all succeed still faults: the
action's `None` feedback makes the template substitution raise
`TypeError`, which is neither an observation nor a session-creation
error. -/
theorem scroll_up_success_faults_type_error :
    toolScrollUp none { pageUrl := "http://a/", pageHistory := [] }
      (Except.ok "content") (Except.ok "http://files/s.png") =
      Except.error replaceTypeErr := rfl

/-- C1 amended: tool calls whose action yields a string feedback
(`visit_page`, `fill_form`, `click_text`) do resolve to an observation
whenever content extraction and screenshot upload succeed; but
`scroll_up` and `scroll_down` propagate engine exceptions unwrapped, and
on success they and `back` hand a `None` feedback to the template, so
those three tool calls fault with `TypeError` instead of returning an
observation. -/
theorem observation_only_for_string_feedback :
    (∀ url o s c u, ∃ obs,
      toolVisitPage url o s (Except.ok c) (Except.ok u) = Except.ok obs) ∧
    (∀ n v o s c u, ∃ obs,
      toolFillForm n v o s (Except.ok c) (Except.ok u) = Except.ok obs) ∧
    (∀ text o s c u, ∃ obs,
      toolClickText text o s (Except.ok c) (Except.ok u) = Except.ok obs) ∧
    (∀ e s c u, toolScrollUp (some e) s (Except.ok c) (Except.ok u) = Except.error e) ∧
    (∀ s c u, toolScrollUp none s (Except.ok c) (Except.ok u) = Except.error replaceTypeErr) ∧
    (∀ s c u, toolScrollDown none s (Except.ok c) (Except.ok u) = Except.error replaceTypeErr) ∧
    (∀ ua ve s c u,
      toolBack (fun _ => BackEngine.mk none ua none ve) s (Except.ok c) (Except.ok u) =
        Except.error replaceTypeErr) := by
  refine ⟨?_, ?_, ?_, ?_, ?_, ?_, ?_⟩
  · intro url o s c u
    obtain ⟨m, hm⟩ := visitPage_result_isStr url o s
    exact ⟨_, by rw [toolVisitPage, hm, callBrowserWithObservation_ok]⟩
  · intro n v o s c u
    obtain ⟨m, hm⟩ := fillForm_result_isStr n v o s
    exact ⟨_, by rw [toolFillForm, hm, callBrowserWithObservation_ok]⟩
  · intro text o s c u
    obtain ⟨m, hm⟩ := clickText_result_isStr text o s
    exact ⟨_, by rw [toolClickText, hm, callBrowserWithObservation_ok]⟩
  · intro e s c u
    rfl
  · intro s c u
    rfl
  · intro s c u
    rfl
  · intro ua ve s c u
    have hb : (back (fun _ => BackEngine.mk none ua none ve) s).1 = PyVal.pyNone := by
      unfold back
      exact retry_first_ok_fst "back" _ s PyVal.pyNone (backBody_fst _ s rfl rfl)
    rw [toolBack, hb]
    rfl

/-- C6 witness: an engine-level back that leaves the URL unchanged, with
one recorded URL on the stack, re-visits that URL. -/
theorem back_fallback_policy_witness :
    (back (fun _ => BackEngine.mk none "http://a/" none
        (fun _ => { gotoErr := none, loadErr := none }))
      { pageUrl := "http://a/", pageHistory := ["http://x/"] }).2 =
      { pageUrl := normalizeUrl "http://x/", pageHistory := [] } :=
  ((back_fallback_policy
      (fun _ => BackEngine.mk none "http://a/" none
        (fun _ => { gotoErr := none, loadErr := none }))
      { pageUrl := "http://a/", pageHistory := ["http://x/"] } rfl rfl).1
    (Or.inr rfl) [] "http://x/" rfl).2 rfl
